import Mathlib

/-!
Shallow embedding of the shutter control engine (`shutters.py`) of the
Yokis-EnOcean repository, together with theorems settling the frozen claims
about its specification.

Modelling conventions:
* Python floats (delays, seconds) are modelled as `ℚ`; percents and tokens
  (Python ints) as `ℤ`; `None` as `Option`.
* The per-shutter mutable globals `_shutter_state` / `_shutter_state_percent`
  are bundled into `PosState`; the motion planner is modelled as a pure
  function that returns the trace of externally visible actions (hardware
  commands, sleeps, percent writes) plus the final `PosState`, under the
  assumption that the running task keeps the valid generation token
  (no concurrent cancellation).
* A Python `raise` is modelled as `Except.error`; a normal `return b` as
  `Except.ok b`.
-/

namespace Yokis

/-- Embeds the `ShutterState` enum of `shutters.py`. -/
inductive ShutterState where
  | OPEN
  | CLOSE
  | STOP
  | HALF
deriving DecidableEq, Repr

/-- Per-shutter position state: `_shutter_state` (last commanded discrete
state) and `_shutter_state_percent` (last known percent, `none` = unknown). -/
structure PosState where
  state : ShutterState
  percent : Option ℤ
deriving DecidableEq, Repr

/-- Externally visible actions of a motion task: a hardware command sent
through the actuator channel, a `time.sleep`, or a percent write to the
position state. -/
inductive Event where
  | cmd (s : ShutterState)
  | sleep (d : ℚ)
  | write (p : ℤ)
deriving DecidableEq, Repr

/-- Calibration of a fine-tunable shutter: the entries of
`_shutter_delay_close`, `_shutter_closed_offset`, `_shutter_delay_open` and
`_shutter_halfway` for one shutter. -/
structure Cal where
  closeDelaySec : ℚ
  closedOffsetSec : ℚ
  openDelaySec : ℚ
  halfwayPercent : ℤ
deriving DecidableEq, Repr

/-- Embeds `_SEND_COMMAND_DELAY = 0.1`. -/
def SEND_COMMAND_DELAY : ℚ := 1/10

/-- Embeds `_START_MOVING_DELAY = 0.5`. -/
def START_MOVING_DELAY : ℚ := 1/2

/-- The clamp to [0,100] used at several places of `shutters.py`
(`if x < 0: x = 0` / `if x > 100: x = 100`). -/
def clampPercent (p : ℤ) : ℤ :=
  if p < 0 then 0 else if p > 100 then 100 else p

/-- Embeds `get_current_state_percent` (lines 126-140): the stored percent,
clamped into [0,100], or `none` when unknown. -/
def get_current_state_percent (st : PosState) : Option ℤ :=
  match st.percent with
  | none => none
  | some p => some (clampPercent p)

/-- Embeds `get_current_state` (lines 117-124): last operated state,
`STOP` when never set. -/
def get_current_state (st : PosState) : ShutterState :=
  st.state

/-- Embeds `get_full_length_delay` (lines 91-101): delay for a full
0%→99% (CLOSE) or 99%→0% (OPEN) travel; `none` for other states. -/
def get_full_length_delay (c : Cal) : ShutterState → Option ℚ
  | ShutterState.OPEN => some c.openDelaySec
  | ShutterState.CLOSE => some c.closeDelaySec
  | _ => none

/-- Total version of `get_full_length_delay` used inside the planner, where
the direction is always OPEN or CLOSE so the `none` default is unreachable. -/
def fullLen (c : Cal) (s : ShutterState) : ℚ :=
  (get_full_length_delay c s).getD 0

/-- Embeds `_update_state_percent_from_thread` (lines 174-196), token check
aside: clamp the percent, store it, and derive the discrete state from it.
Both dictionary entries are overwritten, so the result does not depend on the
previous position state. -/
def updateStatePercent (hw : ℤ) (p : ℤ) : PosState :=
  let q := clampPercent p
  { percent := some q
    state :=
      if q ≤ 0 then ShutterState.OPEN
      else if q ≥ 100 then ShutterState.CLOSE
      else if q = hw then ShutterState.HALF
      else ShutterState.STOP }

/-- Embeds line 237: `direction = OPEN if desired < current else CLOSE`. -/
def plannedDirection (current desired : ℤ) : ShutterState :=
  if desired < current then ShutterState.OPEN else ShutterState.CLOSE

/-- Embeds line 239: `increment = -1 if direction == OPEN else 1`. -/
def plannedInc (dir : ShutterState) : ℤ :=
  if dir = ShutterState.OPEN then -1 else 1

/-- Embeds line 238: `one_percent_delay = get_full_length_delay(...) / 99`. -/
def onePercentDelay (c : Cal) (dir : ShutterState) : ℚ :=
  fullLen c dir / 99

/-- Embeds lines 241-247: the delay slept before the first one-percent step
(closed-offset or one-percent delay, minus the inter-command spacing, floored
at 0, plus the start-moving settle delay). -/
def firstStepDelay (c : Cal) (current inc : ℤ) (onePct : ℚ) : ℚ :=
  let fp : ℚ :=
    if (current = 100 ∧ inc = -1) ∨ (current = 99 ∧ inc = 1) then
      c.closedOffsetSec - SEND_COMMAND_DELAY
    else
      onePct - SEND_COMMAND_DELAY
  (if fp > 0 then fp else 0) + START_MOVING_DELAY

/-- Embeds lines 269-270: a STOP command is sent after the loop exactly when
the final percent is strictly between 0 and 100. -/
def stopCmds (desired : ℤ) : List Event :=
  if 0 < desired ∧ desired < 100 then [Event.cmd ShutterState.STOP] else []

/-- Embeds the `while True` loop of `_move_to_state_percent` (lines 252-264):
advance by `inc`, write the percent, stop at the target, otherwise sleep the
closed-offset delay at the 99%/100% boundary and the one-percent delay
elsewhere.  The fuel argument is the remaining distance to the target; the
loop of the source terminates exactly when the incremented percent reaches
the target, which the callers' fuel `(desired - current).natAbs` realizes. -/
def moveLoop (c : Cal) (desired inc : ℤ) (onePct : ℚ) :
    ℕ → ℤ → PosState → List Event × PosState
  | 0, _, st => ([], st)
  | n + 1, cur, _ =>
    let cur' := cur + inc
    let st' := updateStatePercent c.halfwayPercent cur'
    if cur' = desired then
      ([Event.write cur'], st')
    else
      let d : ℚ :=
        if (cur' = 100 ∧ inc = -1) ∨ (cur' = 99 ∧ inc = 1) then
          c.closedOffsetSec
        else
          onePct
      let r := moveLoop c desired inc onePct n cur' st'
      (Event.write cur' :: Event.sleep d :: r.1, r.2)

/-- One step of the incremental loop as the specification describes it:
write the new percent, then (unless this is the last step) sleep the
closed-offset delay when the next step crosses the 99%/100% boundary and the
uniform one-percent delay otherwise. -/
def claimedStep (c : Cal) (onePct : ℚ) (inc pos : ℤ) (isLast : Bool) : List Event :=
  Event.write pos ::
    (if isLast then []
     else [Event.sleep
        (if (pos = 100 ∧ inc = -1) ∨ (pos = 99 ∧ inc = 1) then
          c.closedOffsetSec
        else
          onePct)])

/-- The incremental trace as the specification describes it: starting from
`cur`, each of the `n` steps advances the percent by exactly `inc` and writes
it, with the per-step sleeps of `claimedStep`. -/
def claimedTrace (c : Cal) (onePct : ℚ) (inc : ℤ) : ℤ → ℕ → List Event
  | _, 0 => []
  | cur, n + 1 =>
    claimedStep c onePct inc (cur + inc) (n == 0) ++
      claimedTrace c onePct inc (cur + inc) n

/-- Embeds `_move_to_state_percent` (lines 227-270) once the current percent
is known: the no-op check, then direction choice, first-step delay, the
incremental loop and the final conditional STOP. -/
def moveKnown (c : Cal) (desired current : ℤ) (st : PosState) :
    List Event × PosState :=
  if current = desired then
    ((if desired = 0 then [Event.cmd ShutterState.OPEN] else []) ++
     (if desired = 100 then [Event.cmd ShutterState.CLOSE] else []), st)
  else
    let dir := plannedDirection current desired
    let onePct := onePercentDelay c dir
    let inc := plannedInc dir
    let fd := firstStepDelay c current inc onePct
    let r := moveLoop c desired inc onePct (desired - current).natAbs current st
    (Event.cmd dir :: Event.sleep fd :: (r.1 ++ stopCmds desired), r.2)

/-- Embeds `_move_to_state_percent` (lines 198-270), token checks aside:
clamp the desired percent, bootstrap from an endpoint when the current
percent is unknown (lines 215-225), then proceed as `moveKnown`. -/
def move_to_state_percent (c : Cal) (desired0 : ℤ) (st0 : PosState) :
    List Event × PosState :=
  let desired := clampPercent desired0
  match get_current_state_percent st0 with
  | none =>
    let dir0 := if desired ≤ 50 then ShutterState.OPEN else ShutterState.CLOSE
    let p0 : ℤ := if desired ≤ 50 then 0 else 100
    let d0 := fullLen c dir0 + c.closedOffsetSec + 1
    let st1 := updateStatePercent c.halfwayPercent p0
    let r := moveKnown c desired p0 st1
    (Event.cmd dir0 :: Event.sleep d0 :: Event.write p0 :: r.1, r.2)
  | some p => moveKnown c desired p st0

/-- The current percent the planner works from after the bootstrap phase:
the known clamped percent, or the endpoint chosen at lines 216-217 when the
percent is unknown. -/
def plannerCurrent (st : PosState) (desired : ℤ) : ℤ :=
  match get_current_state_percent st with
  | none => if desired ≤ 50 then 0 else 100
  | some p => p

/-- Embeds the token minting of `operate` (lines 285-288): take the
millisecond timestamp, decrement it when it collides with the shutter's
current token (absent tokens read as 0 via `dict.get(shutter, 0)`). -/
def newToken (current : Option ℤ) (nowMs : ℤ) : ℤ :=
  let t := nowMs
  if current.getD 0 = t then t - 1 else t

/-- Python truthiness of an optional float: `None` and `0.0` are falsy. -/
def optTruthy : Option ℚ → Bool
  | none => false
  | some x => x ≠ 0

/-- The three delay entries stored together for a fine-tunable shutter
(lines 72-74). -/
structure DelayTriple where
  close : ℚ
  offset : ℚ
  opn : ℚ
deriving DecidableEq, Repr

/-- Embeds the delay handling of the configuration loading loop
(lines 62-74): the partial-delay check — whose membership list
`[shutter_open_delay, shutter_closed_offset, shutter_open_delay]` of
line 63 tests the open delay twice and never the close delay — followed by
the truthiness-guarded storage of the three delays, each clamped at 0.
Returns the stored triple, `none` when the shutter is loaded as basic, or an
error when loading raises.  The second error arm models the `TypeError`
Python would raise comparing `None < 0`; it is unreachable because the first
check already rejects a truthy close delay with a missing offset or open
delay. -/
def loadShutterDelays (close offset opn : Option ℚ) :
    Except String (Option DelayTriple) :=
  if (optTruthy close || optTruthy offset || optTruthy opn) &&
      (opn.isNone || offset.isNone || opn.isNone) then
    Except.error "Please define close/offset/open, or none of each"
  else if optTruthy close then
    match close, offset, opn with
    | some cl, some off, some op =>
      Except.ok (some
        { close := if cl < 0 then 0 else cl
          offset := if off < 0 then 0 else off
          opn := if op < 0 then 0 else op })
    | _, _, _ => Except.error "TypeError"
  else
    Except.ok none

deriving instance DecidableEq for Except

/-- ASCII lowercasing of one character, as Python `str.lower()` does on the
ASCII shutter aliases of the configuration. -/
def lowerChar (c : Char) : Char :=
  if 'A' ≤ c ∧ c ≤ 'Z' then Char.ofNat (c.toNat + 32) else c

/-- Models Python `str.lower()` (ASCII range), used by `_send_command` and
`operate` on the shutter alias. -/
def pyLower (s : String) : String :=
  String.mk (s.data.map lowerChar)

/-- The global dictionaries of `shutters.py` that `operate` consults, as
association lists keyed by shutter alias. -/
structure Env where
  shutters : List (String × String)
  delayClose : List (String × ℚ)
  closedOffset : List (String × ℚ)
  delayOpen : List (String × ℚ)
  halfway : List (String × ℤ)
deriving Repr

/-- Dictionary lookup (`dict.get(key, None)` / `key in dict`). -/
def dictGet {α : Type} (d : List (String × α)) (k : String) : Option α :=
  (d.find? (fun kv => kv.1 == k)).map (fun kv => kv.2)

/-- Per-shutter mutable state seen by `operate`: the current generation
token (`_shutter_thread_tokens`, `none` when never operated) and the
position state. -/
structure ShutterSys where
  token : Option ℤ
  pos : PosState
deriving DecidableEq, Repr

/-- Result of one `operate` call on one shutter: the returned boolean or the
propagated exception, the hardware commands issued synchronously, the
per-shutter state after the synchronous part, and the desired percent of the
spawned motion task when one is started. -/
structure OpResult where
  ret : Except String Bool
  events : List Event
  sys : ShutterSys
  task : Option ℤ
deriving Repr

/-- Embeds `operate` (lines 272-319).  `nowMs` stands for
`round(time.time() * 1000)`; `sendOk` tells whether the external actuator
channel invocation inside `_send_command` succeeds — when it fails the
exception propagates out of `operate`, modelled as `Except.error`, with
every mutation performed before the send already applied. -/
def operate (env : Env) (shutter0 : String) (state : ShutterState)
    (targetHalf : Option ℤ) (nowMs : ℤ) (sendOk : Bool)
    (sys : ShutterSys) : OpResult :=
  let shutter := pyLower shutter0
  if (dictGet env.shutters shutter).isNone then
    { ret := Except.error ("Unknown shutter: " ++ shutter)
      events := [], sys := sys, task := none }
  else
    let tok := newToken sys.token nowMs
    let sys1 : ShutterSys := { sys with token := some tok }
    match dictGet env.delayClose shutter, dictGet env.closedOffset shutter,
        dictGet env.delayOpen shutter, dictGet env.halfway shutter with
    | some _, some _, some _, some hw =>
      -- Fine-tunable shutter: movable to any desired height
      let desired := targetHalf
      let desired := if state = ShutterState.HALF ∧ targetHalf = none
        then some hw else desired
      let desired := if state = ShutterState.OPEN then some 0 else desired
      let desired := if state = ShutterState.CLOSE then some 100 else desired
      if state = ShutterState.STOP then
        let sys2 : ShutterSys :=
          { sys1 with pos := { sys1.pos with state := ShutterState.STOP } }
        if sendOk then
          { ret := Except.ok true, events := [Event.cmd ShutterState.STOP]
            sys := sys2, task := none }
        else
          { ret := Except.error "DispatchError", events := []
            sys := sys2, task := none }
      else
        { ret := Except.ok true, events := [], sys := sys1, task := desired }
    | _, _, _, _ =>
      -- Basic shutter management: only open/close
      if state = ShutterState.HALF then
        { ret := Except.ok false, events := [], sys := sys1, task := none }
      else
        let sys2 : ShutterSys :=
          { sys1 with pos := { sys1.pos with state := state } }
        if sendOk then
          { ret := Except.ok true, events := [Event.cmd state]
            sys := sys2, task := none }
        else
          { ret := Except.error "DispatchError", events := []
            sys := sys2, task := none }

/-! Concrete fixtures used by the witness theorems: the calibration of the
scenario in the specification (`open=10s, close=12s, offset=2s, halfway=50`),
an environment with one fine-tunable shutter `a`, and one with one basic
shutter `b`. -/

/-- Calibration fixture: close 12s, offset 2s, open 10s, halfway 50%. -/
def cal0 : Cal :=
  { closeDelaySec := 12, closedOffsetSec := 2
    openDelaySec := 10, halfwayPercent := 50 }

/-- Environment fixture with one fine-tunable shutter `a`. -/
def env0 : Env :=
  { shutters := [("a", "A")], delayClose := [("a", 12)]
    closedOffset := [("a", 2)], delayOpen := [("a", 10)]
    halfway := [("a", 50)] }

/-- Environment fixture with one basic shutter `b` (no delays configured). -/
def envB : Env :=
  { shutters := [("b", "B")], delayClose := [], closedOffset := []
    delayOpen := [], halfway := [("b", 50)] }

/-! ## Helper lemmas -/

lemma clampPercent_eq {p : ℤ} (h0 : 0 ≤ p) (h1 : p ≤ 100) :
    clampPercent p = p := by
  unfold clampPercent
  rw [if_neg (by omega), if_neg (by omega)]

lemma clampPercent_bounds (p : ℤ) :
    0 ≤ clampPercent p ∧ clampPercent p ≤ 100 := by
  unfold clampPercent
  split
  · omega
  · split <;> omega

lemma gcsp_some {st : PosState} {p : ℤ} (h : st.percent = some p) :
    get_current_state_percent st = some (clampPercent p) := by
  simp [get_current_state_percent, h]

lemma gcsp_none {st : PosState} (h : st.percent = none) :
    get_current_state_percent st = none := by
  simp [get_current_state_percent, h]

lemma updateStatePercent_percent (hw p : ℤ) :
    (updateStatePercent hw p).percent = some (clampPercent p) := rfl

lemma move_known_percent (c : Cal) (d0 : ℤ) (st0 : PosState) (p : ℤ)
    (h : get_current_state_percent st0 = some p) :
    move_to_state_percent c d0 st0 = moveKnown c (clampPercent d0) p st0 := by
  simp [move_to_state_percent, h]

lemma move_unknown (c : Cal) (d0 : ℤ) (st0 : PosState)
    (h : st0.percent = none) :
    move_to_state_percent c d0 st0 =
      (Event.cmd (if clampPercent d0 ≤ 50 then ShutterState.OPEN
          else ShutterState.CLOSE) ::
        Event.sleep (fullLen c (if clampPercent d0 ≤ 50 then ShutterState.OPEN
          else ShutterState.CLOSE) + c.closedOffsetSec + 1) ::
        Event.write (if clampPercent d0 ≤ 50 then (0:ℤ) else 100) ::
        (moveKnown c (clampPercent d0)
          (if clampPercent d0 ≤ 50 then (0:ℤ) else 100)
          (updateStatePercent c.halfwayPercent
            (if clampPercent d0 ≤ 50 then (0:ℤ) else 100))).1,
       (moveKnown c (clampPercent d0)
          (if clampPercent d0 ≤ 50 then (0:ℤ) else 100)
          (updateStatePercent c.halfwayPercent
            (if clampPercent d0 ≤ 50 then (0:ℤ) else 100))).2) := by
  simp [move_to_state_percent, gcsp_none h]

lemma moveKnown_ne (c : Cal) (d q : ℤ) (st : PosState) (h : q ≠ d) :
    moveKnown c d q st =
      (Event.cmd (plannedDirection q d) ::
        Event.sleep (firstStepDelay c q (plannedInc (plannedDirection q d))
          (onePercentDelay c (plannedDirection q d))) ::
        ((moveLoop c d (plannedInc (plannedDirection q d))
            (onePercentDelay c (plannedDirection q d))
            (d - q).natAbs q st).1 ++ stopCmds d),
       (moveLoop c d (plannedInc (plannedDirection q d))
          (onePercentDelay c (plannedDirection q d))
          (d - q).natAbs q st).2) := by
  simp [moveKnown, h]

lemma moveLoop_spec (c : Cal) (onePct : ℚ) (inc : ℤ)
    (hinc : inc = 1 ∨ inc = -1) :
    ∀ (n : ℕ) (cur d : ℤ) (st : PosState), 1 ≤ n → d = cur + inc * n →
      moveLoop c d inc onePct n cur st =
        (claimedTrace c onePct inc cur n,
         updateStatePercent c.halfwayPercent d) := by
  intro n
  induction n with
  | zero => intro cur d st h _; omega
  | succ m ih =>
    intro cur d st _ hd
    by_cases hm : m = 0
    · subst hm
      have hcd : cur + inc = d := by push_cast at hd; omega
      simp [moveLoop, claimedTrace, claimedStep, hcd]
    · have hm1 : 1 ≤ m := Nat.one_le_iff_ne_zero.mpr hm
      have hne : ¬ (cur + inc = d) := by
        rcases hinc with h1 | h1 <;> (subst h1; push_cast at hd; omega)
      have hd' : d = (cur + inc) + inc * (m : ℤ) := by
        push_cast at hd; rw [hd]; ring
      rw [moveLoop]
      rw [if_neg hne]
      rw [ih (cur + inc) d (updateStatePercent c.halfwayPercent (cur + inc))
        hm1 hd']
      simp [claimedTrace, claimedStep, hm]

lemma cmd_not_mem_moveLoop (c : Cal) (onePct : ℚ) (inc : ℤ)
    (s : ShutterState) :
    ∀ (n : ℕ) (cur d : ℤ) (st : PosState),
      Event.cmd s ∉ (moveLoop c d inc onePct n cur st).1 := by
  intro n
  induction n with
  | zero => intro cur d st; simp [moveLoop]
  | succ m ih =>
    intro cur d st
    by_cases h : cur + inc = d <;>
      simp [moveLoop, h, ih]

lemma stop_mem_moveKnown (c : Cal) (d q : ℤ) (st : PosState) (h : q ≠ d) :
    (Event.cmd ShutterState.STOP ∈ (moveKnown c d q st).1) ↔
      (0 < d ∧ d < 100) := by
  rw [moveKnown_ne c d q st h]
  by_cases hdd : 0 < d ∧ d < 100 <;>
    by_cases hqd : d < q <;>
      simp [stopCmds, hdd, hqd, plannedDirection, cmd_not_mem_moveLoop]

lemma plannedInc_neg {current desired : ℤ} (h : desired < current) :
    plannedInc (plannedDirection current desired) = -1 := by
  unfold plannedDirection plannedInc
  rw [if_pos h, if_pos rfl]

lemma plannedInc_pos {current desired : ℤ} (h : ¬ desired < current) :
    plannedInc (plannedDirection current desired) = 1 := by
  unfold plannedDirection plannedInc
  rw [if_neg h, if_neg (by decide)]

lemma plannerCurrent_none {st : PosState} (d : ℤ) (h : st.percent = none) :
    plannerCurrent st d = if d ≤ 50 then 0 else 100 := by
  simp [plannerCurrent, gcsp_none h]

lemma plannerCurrent_some {st : PosState} {p : ℤ} (d : ℤ)
    (h : st.percent = some p) :
    plannerCurrent st d = clampPercent p := by
  simp [plannerCurrent, gcsp_some h]

/-! ## Claim theorems -/

/-- C1: for a fine-tunable shutter whose known current percent `p` differs
from the target percent `d`, the planner's direction is OPEN exactly when
`d < p` (CLOSE otherwise), the per-percent delay is
`fullLengthDelay(direction) / 99`, and the incremental loop's trace is
exactly `claimedTrace`: each step advances the percent by the ±1 increment
of the chosen direction and writes it, the in-loop sleep before a step that
crosses the 99%/100% boundary is `closedOffsetSec` undiminished, and every
other in-loop sleep is the per-percent delay; the loop terminates with the
stored percent equal to the target. -/
theorem incremental_loop_direction_steps_and_delays
    (c : Cal) (d p : ℤ) (st0 : PosState)
    (hst : st0.percent = some p) (hp0 : 0 ≤ p) (hp1 : p ≤ 100)
    (hd0 : 0 ≤ d) (hd1 : d ≤ 100) (hne : p ≠ d) :
    plannedDirection p d =
      (if d < p then ShutterState.OPEN else ShutterState.CLOSE) ∧
    plannedInc (plannedDirection p d) = (if d < p then (-1 : ℤ) else 1) ∧
    onePercentDelay c (plannedDirection p d) =
      fullLen c (plannedDirection p d) / 99 ∧
    (move_to_state_percent c d st0).1 =
      Event.cmd (plannedDirection p d) ::
      Event.sleep (firstStepDelay c p (plannedInc (plannedDirection p d))
        (onePercentDelay c (plannedDirection p d))) ::
      (claimedTrace c (onePercentDelay c (plannedDirection p d))
        (plannedInc (plannedDirection p d)) p (d - p).natAbs ++
        stopCmds d) ∧
    (move_to_state_percent c d st0).2.percent = some d := by
  have hq : clampPercent p = p := clampPercent_eq hp0 hp1
  have hqd : clampPercent d = d := clampPercent_eq hd0 hd1
  have hg : get_current_state_percent st0 = some p := by
    rw [gcsp_some hst, hq]
  have hmove : move_to_state_percent c d st0 = moveKnown c d p st0 := by
    rw [move_known_percent c d st0 p hg, hqd]
  have hinc : plannedInc (plannedDirection p d) = 1 ∨
      plannedInc (plannedDirection p d) = -1 := by
    by_cases h : d < p
    · exact Or.inr (plannedInc_neg h)
    · exact Or.inl (plannedInc_pos h)
  have hfuel : d = p + plannedInc (plannedDirection p d) *
      ((d - p).natAbs : ℤ) := by
    by_cases h : d < p
    · rw [plannedInc_neg h]; omega
    · rw [plannedInc_pos h]; omega
  have h1n : 1 ≤ (d - p).natAbs := by omega
  have hloop := moveLoop_spec c (onePercentDelay c (plannedDirection p d))
    (plannedInc (plannedDirection p d)) hinc ((d - p).natAbs) p d st0 h1n
    hfuel
  rw [hmove, moveKnown_ne c d p st0 hne, hloop]
  refine ⟨rfl, ?_, rfl, rfl, ?_⟩
  · by_cases h : d < p
    · rw [plannedInc_neg h, if_pos h]
    · rw [plannedInc_pos h, if_neg h]
  · rw [updateStatePercent_percent, hqd]

/-- C1 witness: moving shutter `cal0` from 98% to 100%. -/
theorem incremental_loop_direction_steps_and_delays_witness :
    plannedDirection 98 100 =
      (if (100:ℤ) < 98 then ShutterState.OPEN else ShutterState.CLOSE) ∧
    plannedInc (plannedDirection 98 100) =
      (if (100:ℤ) < 98 then (-1 : ℤ) else 1) ∧
    onePercentDelay cal0 (plannedDirection 98 100) =
      fullLen cal0 (plannedDirection 98 100) / 99 ∧
    (move_to_state_percent cal0 100 ⟨ShutterState.STOP, some 98⟩).1 =
      Event.cmd (plannedDirection 98 100) ::
      Event.sleep (firstStepDelay cal0 98 (plannedInc (plannedDirection 98 100))
        (onePercentDelay cal0 (plannedDirection 98 100))) ::
      (claimedTrace cal0 (onePercentDelay cal0 (plannedDirection 98 100))
        (plannedInc (plannedDirection 98 100)) 98 ((100 - 98 : ℤ)).natAbs ++
        stopCmds 100) ∧
    (move_to_state_percent cal0 100 ⟨ShutterState.STOP, some 98⟩).2.percent =
      some 100 :=
  incremental_loop_direction_steps_and_delays cal0 100 98
    ⟨ShutterState.STOP, some 98⟩ rfl (by decide) (by decide) (by decide)
    (by decide) (by decide)

/-- C2: whenever the incremental loop runs (the planner's working percent
differs from the target), a STOP command appears in the trace exactly when
the target percent is strictly between 0 and 100; for targets 0 and 100 no
STOP is sent. -/
theorem stop_sent_iff_intermediate_target (c : Cal) (d : ℤ) (st0 : PosState)
    (hd0 : 0 ≤ d) (hd1 : d ≤ 100) (hrun : plannerCurrent st0 d ≠ d) :
    (Event.cmd ShutterState.STOP ∈ (move_to_state_percent c d st0).1) ↔
      (0 < d ∧ d < 100) := by
  have hc := clampPercent_eq hd0 hd1
  cases hst : st0.percent with
  | none =>
    rw [plannerCurrent_none d hst] at hrun
    rw [move_unknown c d st0 hst, hc]
    by_cases h50 : d ≤ 50
    · rw [if_pos h50] at hrun
      simp [h50, List.mem_cons,
        stop_mem_moveKnown c d 0 (updateStatePercent c.halfwayPercent 0) hrun]
    · rw [if_neg h50] at hrun
      simp [h50, List.mem_cons,
        stop_mem_moveKnown c d 100
          (updateStatePercent c.halfwayPercent 100) hrun]
  | some p =>
    rw [plannerCurrent_some d hst] at hrun
    rw [move_known_percent c d st0 (clampPercent p) (gcsp_some hst), hc]
    rw [stop_mem_moveKnown c d (clampPercent p) st0 hrun]

/-- C2 witness: moving shutter `cal0` from 49% to 50% ends with a STOP. -/
theorem stop_sent_iff_intermediate_target_witness :
    (Event.cmd ShutterState.STOP ∈
      (move_to_state_percent cal0 50 ⟨ShutterState.STOP, some 49⟩).1) ↔
      (0 < (50:ℤ) ∧ (50:ℤ) < 100) :=
  stop_sent_iff_intermediate_target cal0 50 ⟨ShutterState.STOP, some 49⟩
    (by decide) (by decide) (by decide)

/-- C6: when the known current percent already equals the target, the motion
task runs no incremental loop (the trace holds no write and no sleep) and
leaves the position state unchanged; it resends OPEN when the target is 0,
resends CLOSE when the target is 100, and sends nothing otherwise. -/
theorem noop_when_current_equals_target (c : Cal) (d : ℤ) (st0 : PosState)
    (hst : st0.percent = some d) (hd0 : 0 ≤ d) (hd1 : d ≤ 100) :
    move_to_state_percent c d st0 =
      ((if d = 0 then [Event.cmd ShutterState.OPEN]
        else if d = 100 then [Event.cmd ShutterState.CLOSE]
        else []), st0) := by
  have hc := clampPercent_eq hd0 hd1
  have hg : get_current_state_percent st0 = some d := by
    rw [gcsp_some hst, hc]
  rw [move_known_percent c d st0 d hg, hc]
  unfold moveKnown
  rw [if_pos rfl]
  by_cases h0 : d = 0
  · subst h0; norm_num
  · by_cases h100 : d = 100
    · subst h100; norm_num
    · simp [h0, h100]

/-- C6 witness: a second `OPEN` from 0% resends OPEN only and keeps the
state. -/
theorem noop_when_current_equals_target_witness :
    move_to_state_percent cal0 0 ⟨ShutterState.OPEN, some 0⟩ =
      ((if (0:ℤ) = 0 then [Event.cmd ShutterState.OPEN]
        else if (0:ℤ) = 100 then [Event.cmd ShutterState.CLOSE]
        else []), ⟨ShutterState.OPEN, some 0⟩) :=
  noop_when_current_equals_target cal0 0 ⟨ShutterState.OPEN, some 0⟩ rfl
    (by decide) (by decide)

/-- C7: starting with an unknown percent, the planner first issues OPEN and
targets 0% when the desired percent is at most 50 and otherwise issues CLOSE
and targets 100%, sleeps `fullLengthDelay(direction) + closedOffsetSec + 1`
seconds, records the endpoint percent as current, and continues as the
incremental planner (`moveKnown`) from that endpoint. -/
theorem bootstrap_from_unknown (c : Cal) (d : ℤ) (st0 : PosState)
    (h : st0.percent = none) (hd0 : 0 ≤ d) (hd1 : d ≤ 100) :
    (move_to_state_percent c d st0).1 =
      Event.cmd (if d ≤ 50 then ShutterState.OPEN else ShutterState.CLOSE) ::
      Event.sleep (fullLen c
        (if d ≤ 50 then ShutterState.OPEN else ShutterState.CLOSE) +
        c.closedOffsetSec + 1) ::
      Event.write (if d ≤ 50 then (0:ℤ) else 100) ::
      (moveKnown c d (if d ≤ 50 then (0:ℤ) else 100)
        (updateStatePercent c.halfwayPercent
          (if d ≤ 50 then (0:ℤ) else 100))).1 ∧
    (updateStatePercent c.halfwayPercent
        (if d ≤ 50 then (0:ℤ) else 100)).percent =
      some (if d ≤ 50 then (0:ℤ) else 100) ∧
    (move_to_state_percent c d st0).2 =
      (moveKnown c d (if d ≤ 50 then (0:ℤ) else 100)
        (updateStatePercent c.halfwayPercent
          (if d ≤ 50 then (0:ℤ) else 100))).2 := by
  have hc := clampPercent_eq hd0 hd1
  rw [move_unknown c d st0 h, hc]
  refine ⟨rfl, ?_, rfl⟩
  by_cases h50 : d ≤ 50
  · rw [if_pos h50, updateStatePercent_percent,
      clampPercent_eq (by norm_num) (by norm_num)]
  · rw [if_neg h50, updateStatePercent_percent,
      clampPercent_eq (by norm_num) (by norm_num)]

/-- C7 witness: bootstrapping shutter `cal0` toward 40%. -/
theorem bootstrap_from_unknown_witness :
    (move_to_state_percent cal0 40 ⟨ShutterState.STOP, none⟩).1 =
      Event.cmd (if (40:ℤ) ≤ 50 then ShutterState.OPEN
        else ShutterState.CLOSE) ::
      Event.sleep (fullLen cal0
        (if (40:ℤ) ≤ 50 then ShutterState.OPEN else ShutterState.CLOSE) +
        cal0.closedOffsetSec + 1) ::
      Event.write (if (40:ℤ) ≤ 50 then (0:ℤ) else 100) ::
      (moveKnown cal0 40 (if (40:ℤ) ≤ 50 then (0:ℤ) else 100)
        (updateStatePercent cal0.halfwayPercent
          (if (40:ℤ) ≤ 50 then (0:ℤ) else 100))).1 ∧
    (updateStatePercent cal0.halfwayPercent
        (if (40:ℤ) ≤ 50 then (0:ℤ) else 100)).percent =
      some (if (40:ℤ) ≤ 50 then (0:ℤ) else 100) ∧
    (move_to_state_percent cal0 40 ⟨ShutterState.STOP, none⟩).2 =
      (moveKnown cal0 40 (if (40:ℤ) ≤ 50 then (0:ℤ) else 100)
        (updateStatePercent cal0.halfwayPercent
          (if (40:ℤ) ≤ 50 then (0:ℤ) else 100))).2 :=
  bootstrap_from_unknown cal0 40 ⟨ShutterState.STOP, none⟩ rfl (by decide)
    (by decide)

/-- C10: a percent write stores the clamped percent and rewrites the
discrete state as a function of it: 0 gives OPEN, 100 gives CLOSE, the
configured halfway percent gives HALF, anything else gives STOP — so after
a token-valid percent update the discrete state is fully determined by the
stored percent and the calibration. -/
theorem percent_write_determines_state (hw p : ℤ) :
    (updateStatePercent hw p).percent = some (clampPercent p) ∧
    (updateStatePercent hw p).state =
      (if clampPercent p = 0 then ShutterState.OPEN
       else if clampPercent p = 100 then ShutterState.CLOSE
       else if clampPercent p = hw then ShutterState.HALF
       else ShutterState.STOP) := by
  obtain ⟨hb0, hb1⟩ := clampPercent_bounds p
  refine ⟨rfl, ?_⟩
  unfold updateStatePercent
  by_cases h0 : clampPercent p = 0
  · simp [h0]
  · have hn0 : ¬ clampPercent p ≤ 0 := by omega
    by_cases h100 : clampPercent p = 100
    · have hg : (100:ℤ) ≤ clampPercent p := by omega
      simp [h0, h100, hn0, hg]
    · have hn100 : ¬ (100:ℤ) ≤ clampPercent p := by omega
      simp [h0, h100, hn0, hn100]

/-- C5 amended: a newly minted generation token always differs from the
shutter's current token (absent read as 0), and it exceeds the current token
whenever the millisecond timestamp does — strict increase holds only under
that condition, not unconditionally. -/
theorem newToken_fresh_and_monotone_with_time (cur : Option ℤ) (now : ℤ) :
    newToken cur now ≠ cur.getD 0 ∧
    (cur.getD 0 < now → cur.getD 0 < newToken cur now) := by
  simp only [newToken]
  by_cases h : cur.getD 0 = now
  · rw [if_pos h]
    omega
  · rw [if_neg h]
    omega

/-- C5 witness: minting at timestamp 7 over current token 5. -/
theorem newToken_fresh_and_monotone_with_time_witness :
    newToken (some 5) 7 ≠ (some (5:ℤ)).getD 0 ∧
    ((5:ℤ) < newToken (some 5) 7) :=
  ⟨(newToken_fresh_and_monotone_with_time (some 5) 7).1,
   (newToken_fresh_and_monotone_with_time (some 5) 7).2 (by decide)⟩

/-- C5 counterexample: two mints in the same millisecond (timestamp 1000)
produce tokens 1000 then 999 — the per-shutter token sequence is not
strictly increasing as claimed. -/
theorem newToken_decreases_within_same_millisecond :
    newToken none 1000 = 1000 ∧
    newToken (some (newToken none 1000)) 1000 < newToken none 1000 := by
  decide

/-- C9: evaluation of the configuration loading at the failing input —
`close` absent while `offset = 2.0` and `open = 10.0` are present.  The
partial-delay check of line 63 tests the open delay twice and never the
close delay, so this partial configuration loads without any error as a
basic shutter (no delays stored), instead of failing as the claim (and the
code's own error message) requires. -/
theorem partial_delays_accepted_without_error :
    loadShutterDelays none (some 2) (some 10) = Except.ok none := by
  decide

/-- C3 counterexample: `operate` on the unconfigured shutter id `nope` does
not return the boolean `false` — it raises (`Except.error`), so the claim
"returns false (a boolean failure result to the caller)" fails as stated. -/
theorem operate_unknown_shutter_not_false :
    (operate env0 "nope" ShutterState.OPEN none 1000 true
      ⟨none, ⟨ShutterState.STOP, none⟩⟩).ret ≠ Except.ok false := by
  decide

/-- C3 amended: for every shutter id that is not a configured shutter,
`operate` fails by raising a `ValueError` (a configuration error propagated
to the caller, not a `false` return), performs no hardware command, leaves
the per-shutter state untouched and spawns no motion task. -/
theorem operate_unknown_shutter_raises (env : Env) (s : String)
    (state : ShutterState) (th : Option ℤ) (now : ℤ) (ok : Bool)
    (sys : ShutterSys) (h : dictGet env.shutters (pyLower s) = none) :
    operate env s state th now ok sys =
      { ret := Except.error ("Unknown shutter: " ++ pyLower s)
        events := [], sys := sys, task := none } := by
  unfold operate
  simp [h]

/-- C3 witness: the unknown shutter id `nope` against `env0`. -/
theorem operate_unknown_shutter_raises_witness :
    operate env0 "nope" ShutterState.OPEN none 1000 true
        ⟨none, ⟨ShutterState.STOP, none⟩⟩ =
      { ret := Except.error ("Unknown shutter: " ++ pyLower "nope")
        events := [], sys := ⟨none, ⟨ShutterState.STOP, none⟩⟩
        task := none } :=
  operate_unknown_shutter_raises env0 "nope" ShutterState.OPEN none 1000
    true ⟨none, ⟨ShutterState.STOP, none⟩⟩ (by decide)

/-- C4 counterexample: with the fine-tunable shutter `a` at position state
(OPEN, 0%), a STOP dispatch whose channel invocation fails leaves the
position state different from what it was before the attempted command — the
discrete state was already overwritten to STOP before the send. -/
theorem operate_dispatch_failure_state_mutated :
    (operate env0 "a" ShutterState.STOP none 5 false
        ⟨some 1, ⟨ShutterState.OPEN, some 0⟩⟩).sys.pos ≠
      (⟨ShutterState.OPEN, some 0⟩ : PosState) := by
  decide

/-- C4 amended: for every synchronous dispatch (STOP on a fine-tunable
shutter, or any non-HALF command on a basic shutter), a failing channel
invocation makes `operate` propagate the failure to its caller (an
exception, not a `false` return) with no command event recorded; the stored
percent is unchanged, but the discrete state has already been overwritten
with the commanded state before the send was attempted, so the position
state does not equal its value from before the call. -/
theorem operate_dispatch_failure_behavior (env : Env) (s : String)
    (state : ShutterState) (th : Option ℤ) (now : ℤ) (sys : ShutterSys)
    (hknown : (dictGet env.shutters (pyLower s)).isSome)
    (hsync : state = ShutterState.STOP ∨
      (dictGet env.delayClose (pyLower s) = none ∧
        state ≠ ShutterState.HALF)) :
    operate env s state th now false sys =
      { ret := Except.error "DispatchError", events := []
        sys := { token := some (newToken sys.token now)
                 pos := { state := state, percent := sys.pos.percent } }
        task := none } := by
  obtain ⟨v, hv⟩ := Option.isSome_iff_exists.mp hknown
  unfold operate
  simp only [hv, Option.isNone_some, Bool.false_eq_true, if_false]
  rcases hsync with hstop | ⟨hbasic, hnh⟩
  · subst hstop
    split <;> simp
  · split
    · next _ _ _ _ heq _ _ _ => exact absurd (hbasic ▸ heq) (by simp)
    · rw [if_neg hnh]

/-- C4 witness: STOP on fine-tunable shutter `a` with a failing channel. -/
theorem operate_dispatch_failure_behavior_witness :
    operate env0 "a" ShutterState.STOP none 5 false
        ⟨some 1, ⟨ShutterState.OPEN, some 0⟩⟩ =
      { ret := Except.error "DispatchError", events := []
        sys := { token := some (newToken (some 1) 5)
                 pos := { state := ShutterState.STOP
                          percent := (⟨ShutterState.OPEN, some 0⟩
                            : PosState).percent } }
        task := none } :=
  operate_dispatch_failure_behavior env0 "a" ShutterState.STOP none 5
    ⟨some 1, ⟨ShutterState.OPEN, some 0⟩⟩ (by decide) (Or.inl rfl)

/-- C8: on a basic shutter (one with no calibration delays configured),
`operate(shutter, HALF)` returns `false`, issues no hardware command, leaves
the position state untouched and spawns no motion task. -/
theorem operate_half_on_basic_returns_false (env : Env) (s : String)
    (th : Option ℤ) (now : ℤ) (ok : Bool) (sys : ShutterSys)
    (hknown : (dictGet env.shutters (pyLower s)).isSome)
    (hbasic : dictGet env.delayClose (pyLower s) = none ∨
      dictGet env.closedOffset (pyLower s) = none ∨
      dictGet env.delayOpen (pyLower s) = none ∨
      dictGet env.halfway (pyLower s) = none) :
    operate env s ShutterState.HALF th now ok sys =
      { ret := Except.ok false, events := []
        sys := { token := some (newToken sys.token now), pos := sys.pos }
        task := none } := by
  obtain ⟨v, hv⟩ := Option.isSome_iff_exists.mp hknown
  unfold operate
  simp only [hv, Option.isNone_some, Bool.false_eq_true, if_false]
  split
  · next _ _ _ _ h1 h2 h3 h4 =>
    rcases hbasic with hb | hb | hb | hb
    · exact absurd (hb ▸ h1) (by simp)
    · exact absurd (hb ▸ h2) (by simp)
    · exact absurd (hb ▸ h3) (by simp)
    · exact absurd (hb ▸ h4) (by simp)
  · simp

/-- C8 witness: HALF on the basic shutter `b` of `envB`. -/
theorem operate_half_on_basic_returns_false_witness :
    operate envB "b" ShutterState.HALF none 5 true
        ⟨none, ⟨ShutterState.STOP, none⟩⟩ =
      { ret := Except.ok false, events := []
        sys := { token := some (newToken none 5)
                 pos := (⟨ShutterState.STOP, none⟩ : PosState) }
        task := none } :=
  operate_half_on_basic_returns_false envB "b" none 5 true
    ⟨none, ⟨ShutterState.STOP, none⟩⟩ (by decide) (Or.inl (by decide))

end Yokis
